import Mathlib

/-!
Shallow embedding of the hybrid retrieval and ranking subsystem of the
rag-adas-diagnose repository.

The definitions below are translated from the Python source:
  * `src/agent/tools.py`   — `AutomotiveTools.hybrid_search` (lexical path),
    the stop-word filtering of query terms, the SQL predicate it builds,
    the fixed ORDER BY keys, and the `SearchResult` construction.
  * `src/agent/db_utils.py` — `ChunkRepository.vector_search`.
  * `src/agent/graph_utils.py` — `AutomotiveGraphRepository.find_related_entities`,
    `find_component_dependencies`, `find_system_components`, `search_by_pattern`.

The document store is modelled as in-memory lists of document and chunk rows;
SQL clauses (`LIKE`, `IN`, `ORDER BY`, `LIMIT`, the chunk-document `JOIN`)
are given their relational meaning over those lists.  The Neo4j store is
modelled as a labelled multigraph, and the variable-length Cypher match
`-[r*1..d]-` as enumeration of walks that never reuse a relationship
(Cypher's relationship-uniqueness rule), undirected, of length 1..d.
Store handles that may be unavailable are modelled as `Except String`;
an `Except.error` value stands for a connection/query failure, which the
Python code catches with `except Exception` blocks.
-/

/-! ### SQL LIKE matching

`LOWER(field) LIKE '%term%'`: `%` matches any sequence, `_` any single
character.  The matcher is written with explicit fuel so that it is
structurally recursive and kernel-reducible; every recursive call shrinks
`pattern.length + s.length`, so `pattern.length + s.length + 1` fuel always
suffices.  (The PostgreSQL default escape character is not modelled; no
query in the source builds a pattern containing a backslash.) -/

def likeMatchFuel : Nat → List Char → List Char → Bool
  | 0, _, _ => false
  | fuel + 1, pattern, s =>
    match pattern, s with
    | [], [] => true
    | [], _ :: _ => false
    | '%' :: ps, s =>
      likeMatchFuel fuel ps s ||
        (match s with
         | [] => false
         | _ :: s' => likeMatchFuel fuel ('%' :: ps) s')
    | '_' :: ps, s =>
      (match s with
       | [] => false
       | _ :: s' => likeMatchFuel fuel ps s')
    | p :: ps, s =>
      (match s with
       | [] => false
       | c :: s' => p == c && likeMatchFuel fuel ps s')

def likeMatch (pattern s : List Char) : Bool :=
  likeMatchFuel (pattern.length + s.length + 1) pattern s

/-- ASCII lowercasing of one character (`LOWER` / Python `str.lower` on the
ASCII range used by the queries and fixtures of the source). -/
def toLowerChar (c : Char) : Char :=
  if 65 ≤ c.toNat ∧ c.toNat ≤ 90 then Char.ofNat (c.toNat + 32) else c

def lowerString (s : String) : String := ⟨s.data.map toLowerChar⟩

/-- `LOWER(field) LIKE '%term%'` for an already-lowercased `term`. -/
def likeContains (field term : String) : Bool :=
  likeMatch ('%' :: (term.data ++ ['%'])) (lowerString field).data

/-! ### Lexical query builder (`AutomotiveTools.hybrid_search`, tools.py 339-352)

Stop-word filtering of the free-text query into `search_terms`. -/

def stop_words : List String :=
  ["what", "is", "the", "a", "an", "and", "or", "but", "in", "on", "at",
   "to", "for", "of", "with", "by", "how", "why", "when", "where", "who",
   "which", "that", "this", "these", "those", "?", ".", ",", "!"]

def important_terms : List String :=
  ["unit", "system", "module", "component", "part", "sensor", "camera",
   "primary", "secondary"]

/-- Python `term.strip('.,!?')`: remove the characters `.,!?` from both ends. -/
def stripPunct (s : String) : String :=
  let punct : Char → Bool := fun c => c == '.' || c == ',' || c == '!' || c == '?'
  ⟨((s.data.dropWhile punct).reverse.dropWhile punct).reverse⟩

def wsChar (c : Char) : Bool :=
  c == ' ' || c == '\t' || c == '\n' || c == '\r'

/-- Python `str.split()` with no argument: split on runs of whitespace,
producing no empty tokens. -/
def splitTokensAux : List Char → List Char → List String
  | [], acc => if acc.isEmpty then [] else [⟨acc.reverse⟩]
  | c :: rest, acc =>
    if wsChar c then
      if acc.isEmpty then splitTokensAux rest []
      else (⟨acc.reverse⟩ : String) :: splitTokensAux rest []
    else splitTokensAux rest (c :: acc)

def splitTokens (s : String) : List String := splitTokensAux s.data []

/-- tools.py 344-352: lowercase the query, split on whitespace, strip `.,!?`
from each token, keep a token iff (it is an important term, or not a stop
word, or longer than 3 characters) and longer than 1 character. -/
def filterSearchTerms (query : String) : List String :=
  (splitTokens (lowerString query)).filterMap
    (fun t =>
      let ct := stripPunct t
      if (important_terms.contains ct || !(stop_words.contains ct) ||
            ct.length > 3) && ct.length > 1
      then some ct else none)

/-! ### Document store rows -/

structure DocRow where
  did : Nat
  title : Option String
  filename : String
  content_type : String
  vehicle_system : Option String
  component_name : Option String
  supplier : Option String
  severity_level : Option String
  created_at : Nat
deriving DecidableEq, Repr

structure ChunkRow where
  cid : Nat
  document_id : Nat
  content : String
  chunk_index : Nat
  embedding : Option (List ℚ)
deriving DecidableEq, Repr

structure Store where
  documents : List DocRow
  chunks : List ChunkRow
deriving DecidableEq, Repr

/-- A row of `chunks c JOIN documents d ON c.document_id = d.id`. -/
structure JoinedRow where
  chunk : ChunkRow
  doc : DocRow
deriving DecidableEq, Repr

def joinRows (st : Store) : List JoinedRow :=
  st.chunks.flatMap (fun c =>
    (st.documents.filter (fun d => d.did == c.document_id)).map
      (fun d => ⟨c, d⟩))

/-! ### The WHERE clause of the lexical search (tools.py 356-388) -/

/-- One per-term clause:
`(LOWER(c.content) LIKE '%term%' OR LOWER(d.title) LIKE '%term%')`.
A NULL title makes the title disjunct false (`LOWER(NULL) LIKE _` is NULL). -/
def termCond (term : String) (r : JoinedRow) : Bool :=
  likeContains r.chunk.content term ||
    (match r.doc.title with
     | none => false
     | some t => likeContains t term)

/-- tools.py 361-372: the per-term clauses are joined with `' OR '`;
with no surviving terms the condition is the literal `TRUE`. -/
def contentCond (terms : List String) (r : JoinedRow) : Bool :=
  match terms with
  | [] => true
  | ts => ts.any (fun t => termCond t r)

/-- `d.content_type IN (...)`, emitted only when the Python list is truthy
(non-`None` and non-empty). -/
def ctCond (filters : Option (List String)) (v : String) : Bool :=
  match filters with
  | none => true
  | some [] => true
  | some vs => vs.contains v

/-- `d.vehicle_system IN (...)`; a NULL field never satisfies the IN test. -/
def vsCond (filters : Option (List String)) (v : Option String) : Bool :=
  match filters with
  | none => true
  | some [] => true
  | some vs =>
    match v with
    | none => false
    | some s => vs.contains s

/-! ### The ORDER BY keys (tools.py 408-411) -/

/-- `CASE WHEN LOWER(d.title) LIKE '%camera%' THEN 1 ELSE 2 END`. -/
def camKey (r : JoinedRow) : Nat :=
  match r.doc.title with
  | some t => if likeContains t "camera" then 1 else 2
  | none => 2

/-- `CASE WHEN LOWER(d.title) LIKE '%adas%' THEN 1 ELSE 2 END`. -/
def adasKey (r : JoinedRow) : Nat :=
  match r.doc.title with
  | some t => if likeContains t "adas" then 1 else 2
  | none => 2

/-- The three-key lexicographic order of the lexical search:
camera-title key, then adas-title key, then `d.created_at DESC`. -/
def rowLE (a b : JoinedRow) : Bool :=
  decide (camKey a < camKey b) ||
    (decide (camKey a = camKey b) &&
      (decide (adasKey a < adasKey b) ||
        (decide (adasKey a = adasKey b) &&
          decide (b.doc.created_at ≤ a.doc.created_at))))

theorem rowLE_trans (a b c : JoinedRow) (h1 : rowLE a b = true)
    (h2 : rowLE b c = true) : rowLE a c = true := by
  simp only [rowLE, Bool.or_eq_true, Bool.and_eq_true, decide_eq_true_eq] at *
  omega

theorem rowLE_total (a b : JoinedRow) : (rowLE a b || rowLE b a) = true := by
  simp only [rowLE, Bool.or_eq_true, Bool.and_eq_true, decide_eq_true_eq]
  omega

/-- The ORDER BY relation as a decidable proposition, for sorting. -/
def RowLE (a b : JoinedRow) : Prop := rowLE a b = true

instance : DecidableRel RowLE := fun a b =>
  inferInstanceAs (Decidable (rowLE a b = true))

instance : IsTrans JoinedRow RowLE := ⟨rowLE_trans⟩

instance : IsTotal JoinedRow RowLE :=
  ⟨fun a b => by
    have h := rowLE_total a b
    rcases Bool.or_eq_true_iff.mp h with h' | h'
    · exact Or.inl h'
    · exact Or.inr h'⟩

/-! ### Result formatting (tools.py 424-441, models.py `SearchResult`) -/

structure SearchResult where
  chunk_id : Nat
  document_id : Nat
  content : String
  score : ℚ
  document_title : Option String
  document_filename : String
  content_type : String
  vehicle_system : Option String
  component_name : Option String
deriving DecidableEq, Repr

/-- tools.py 430: `row["content"][:500] + "..." if len(row["content"]) > 500
else row["content"]`. -/
def truncate500 (s : String) : String :=
  if s.length > 500 then String.mk (s.data.take 500) ++ "..." else s

/-- tools.py 427-437: map one fetched row to a `SearchResult`; the SELECT
list fixes `relevance_score` to the literal `1.0`, so `score = 1`. -/
def formatRow (r : JoinedRow) : SearchResult :=
  { chunk_id := r.chunk.cid
    document_id := r.chunk.document_id
    content := truncate500 r.chunk.content
    score := 1
    document_title := r.doc.title
    document_filename := r.doc.filename
    content_type := r.doc.content_type
    vehicle_system := r.doc.vehicle_system
    component_name := r.doc.component_name }

/-! ### The hybrid search operation (tools.py 324-471) -/

/-- `HybridSearchQuery` (tools.py 44-51).  No field carries a validation
constraint in the Python model. -/
structure HybridSearchQuery where
  query : String
  search_type : String
  max_results : Int
  content_types : Option (List String)
  vehicle_systems : Option (List String)
  similarity_threshold : ℚ
deriving DecidableEq, Repr

structure FiltersApplied where
  content_types : Option (List String)
  vehicle_systems : Option (List String)
deriving DecidableEq, Repr

/-- The `summary` dict built at tools.py 444-457. -/
structure SearchSummary where
  total_results : Nat
  search_terms : List String
  filters_applied : FiltersApplied
  result_distribution : List (String × Nat)
deriving DecidableEq, Repr

/-- `query.model_dump()` echoed back at tools.py 462. -/
structure QueryParams where
  query : String
  search_type : String
  max_results : Int
  content_types : Option (List String)
  vehicle_systems : Option (List String)
  similarity_threshold : ℚ
deriving DecidableEq, Repr

/-- The dict returned by `hybrid_search`: the success shape has `results`,
`summary` and `query_parameters` keys; the failure shape (tools.py 467-471)
has `error`, empty `results` and an empty `summary`. -/
structure HybridSearchResponse where
  results : List SearchResult
  summary : Option SearchSummary
  query_parameters : Option QueryParams
  error : Option String
deriving DecidableEq, Repr

def dumpParams (q : HybridSearchQuery) : QueryParams :=
  ⟨q.query, q.search_type, q.max_results, q.content_types,
   q.vehicle_systems, q.similarity_threshold⟩

/-- The whole WHERE clause (tools.py 356-388): the OR-joined term block
(or `TRUE`), AND the content-type IN filter, AND the vehicle-system IN
filter. -/
def wherePred (q : HybridSearchQuery) (r : JoinedRow) : Bool :=
  contentCond (filterSearchTerms q.query) r &&
    ctCond q.content_types r.doc.content_type &&
    vsCond q.vehicle_systems r.doc.vehicle_system

/-- Python dict counting (`summary["result_distribution"]`): bump the count
of a key in an insertion-ordered association list. -/
def bumpCount (k : String) : List (String × Nat) → List (String × Nat)
  | [] => [(k, 1)]
  | (k', n) :: rest =>
    if k' = k then (k', n + 1) :: rest else (k', n) :: bumpCount k rest

def resultDistribution (rs : List SearchResult) : List (String × Nat) :=
  rs.foldl (fun acc r => bumpCount r.content_type acc) []

/-- The single store fetch of the lexical path (tools.py 391-421): join,
WHERE, the fixed three-key ORDER BY, then `LIMIT max_results`.  PostgreSQL
rejects a negative LIMIT, which raises out of `fetch_all`. -/
def runLexicalQuery (st : Store) (q : HybridSearchQuery) :
    Except String (List JoinedRow) :=
  if q.max_results < 0 then Except.error "LIMIT must not be negative"
  else
    Except.ok
      ((List.insertionSort RowLE ((joinRows st).filter (wherePred q))).take
        q.max_results.toNat)

/-- `AutomotiveTools.hybrid_search`.  The second component counts the store
round-trips issued (the code reaches `fetch_all` exactly once on every
path).  The surrounding `except Exception` turns a store failure into the
error-shaped response instead of raising. -/
def hybrid_search (st : Store) (q : HybridSearchQuery) :
    HybridSearchResponse × Nat :=
  match runLexicalQuery st q with
  | Except.error e =>
    ({ results := []
       summary := none
       query_parameters := none
       error := some ("Hybrid search failed: " ++ e) }, 1)
  | Except.ok rows =>
    let rs := rows.map formatRow
    ({ results := rs
       summary := some
         { total_results := rs.length
           search_terms := filterSearchTerms q.query
           filters_applied := ⟨q.content_types, q.vehicle_systems⟩
           result_distribution := resultDistribution rs }
       query_parameters := some (dumpParams q)
       error := none }, 1)

/-! ### Vector similarity search (`ChunkRepository.vector_search`,
db_utils.py 290-356)

`dist` abstracts the pgvector `<=>` operator applied to a stored embedding
and the query embedding; the SELECT computes the similarity as
`1 - (c.embedding <=> $1::vector)` and the ORDER BY sorts by the very same
distance expression, ascending. -/

structure VectorSearchResult where
  chunk_id : Nat
  document_id : Nat
  content : String
  score : ℚ
  similarity_score : ℚ
  chunk_index : Nat
  document_title : Option String
  document_filename : String
  content_type : String
  vehicle_system : Option String
  component_name : Option String
deriving DecidableEq, Repr

/-- `d.content_type = $n`, emitted only when the Python argument is truthy
(not `None` and not the empty string). -/
def eqCond (filter : Option String) (v : String) : Bool :=
  match filter with
  | none => true
  | some "" => true
  | some s => v == s

/-- `d.vehicle_system = $n`; a NULL column never satisfies the equality. -/
def optEqCond (filter : Option String) (v : Option String) : Bool :=
  match filter with
  | none => true
  | some "" => true
  | some s =>
    match v with
    | none => false
    | some t => t == s

/-- Rows satisfying `c.embedding IS NOT NULL` plus the optional equality
filters, paired with their embeddings. -/
def vsCandidates (st : Store) (ct vs : Option String) :
    List (JoinedRow × List ℚ) :=
  (joinRows st).filterMap (fun r =>
    match r.chunk.embedding with
    | none => none
    | some e =>
      if eqCond ct r.doc.content_type && optEqCond vs r.doc.vehicle_system
      then some (r, e) else none)

/-- `ORDER BY c.embedding <=> $1::vector` (distance ascending). -/
def distLE (dist : List ℚ → List ℚ → ℚ) (qe : List ℚ)
    (a b : JoinedRow × List ℚ) : Prop :=
  dist a.2 qe ≤ dist b.2 qe

instance (dist : List ℚ → List ℚ → ℚ) (qe : List ℚ) :
    DecidableRel (distLE dist qe) := fun a b =>
  inferInstanceAs (Decidable (dist a.2 qe ≤ dist b.2 qe))

instance (dist : List ℚ → List ℚ → ℚ) (qe : List ℚ) :
    IsTrans (JoinedRow × List ℚ) (distLE dist qe) :=
  ⟨fun _ _ _ h1 h2 => le_trans h1 h2⟩

instance (dist : List ℚ → List ℚ → ℚ) (qe : List ℚ) :
    IsTotal (JoinedRow × List ℚ) (distLE dist qe) :=
  ⟨fun a b => le_total (dist a.2 qe) (dist b.2 qe)⟩

def mkVectorResult (dist : List ℚ → List ℚ → ℚ) (qe : List ℚ)
    (p : JoinedRow × List ℚ) : VectorSearchResult :=
  { chunk_id := p.1.chunk.cid
    document_id := p.1.chunk.document_id
    content := p.1.chunk.content
    score := 1 - dist p.2 qe
    similarity_score := 1 - dist p.2 qe
    chunk_index := p.1.chunk.chunk_index
    document_title := p.1.doc.title
    document_filename := p.1.doc.filename
    content_type := p.1.doc.content_type
    vehicle_system := p.1.doc.vehicle_system
    component_name := p.1.doc.component_name }

/-- `ChunkRepository.vector_search`: no `try` block, so a store-side
failure (negative LIMIT, or a dimension mismatch raised by `<=>`)
propagates to the caller as an `Except.error`. -/
def vector_search (st : Store) (dist : List ℚ → List ℚ → ℚ) (qe : List ℚ)
    (limit : Int) (ct vs : Option String) :
    Except String (List VectorSearchResult) :=
  if limit < 0 then Except.error "LIMIT must not be negative"
  else if (vsCandidates st ct vs).any (fun p => p.2.length != qe.length)
  then Except.error "different vector dimensions"
  else
    Except.ok
      (((List.insertionSort (distLE dist qe) (vsCandidates st ct vs)).take
          limit.toNat).map (mkVectorResult dist qe))

/-! ### Knowledge graph (`AutomotiveGraphRepository`, graph_utils.py)

The Neo4j store: labelled nodes keyed by name, directed typed
relationships.  An unavailable store is an `Except.error` handle; every
repository method wraps its query in `try/except Exception` and returns
an empty-collection shape on failure. -/

structure GraphNode where
  name : String
  label : String
  ntype : Option String
  value : Option String
  confidence_score : Option ℚ
deriving DecidableEq, Repr

structure GraphEdge where
  eid : Nat
  src : String
  dst : String
  rtype : String
deriving DecidableEq, Repr

structure Graph where
  nodes : List GraphNode
  edges : List GraphEdge
deriving DecidableEq, Repr

/-- Python truthiness of the `relationship_types` argument: `None` and `[]`
both leave the pattern unrestricted (graph_utils.py 358-361). -/
def normTypes (ts : Option (List String)) : Option (List String) :=
  match ts with
  | none => none
  | some [] => none
  | some l => some l

def typeAllowed (allowed : Option (List String)) (t : String) : Bool :=
  match allowed with
  | none => true
  | some ts => ts.contains t

/-- The undirected single steps available from `cur` that use a relationship
of an allowed type and do not reuse a relationship already on the path. -/
def stepsFrom (g : Graph) (allowed : Option (List String)) (cur : String)
    (used : List Nat) : List (GraphEdge × String) :=
  g.edges.filterMap (fun e =>
    if !(used.contains e.eid) && typeAllowed allowed e.rtype then
      if e.src == cur then some (e, e.dst)
      else if e.dst == cur then some (e, e.src)
      else none
    else none)

/-- All walks of length 1..fuel from `cur` that never reuse a relationship
(Cypher's uniqueness rule for `-[r*1..d]-`): each result is the end node
name, the walk length, and the traversed relationship-type list. -/
def walksFrom (g : Graph) (allowed : Option (List String)) :
    Nat → String → List Nat → List (String × Nat × List String)
  | 0, _, _ => []
  | fuel + 1, cur, used =>
    (stepsFrom g allowed cur used).flatMap (fun p =>
      (p.2, 1, [p.1.rtype]) ::
        (walksFrom g allowed fuel p.2 (p.1.eid :: used)).map
          (fun w => (w.1, w.2.1 + 1, p.1.rtype :: w.2.2)))

/-- One row of the `find_related_entities` Cypher RETURN clause. -/
structure RelatedRecord where
  name : String
  ntype : Option String
  value : Option String
  distance : Nat
  relationship_path : List String
deriving DecidableEq, Repr

/-- Code-point lexicographic string order (Cypher `ORDER BY` on names). -/
def charListLE : List Char → List Char → Bool
  | [], _ => true
  | _ :: _, [] => false
  | a :: as, b :: bs =>
    decide (a.toNat < b.toNat) || (a.toNat == b.toNat && charListLE as bs)

def strLE (a b : String) : Bool := charListLE a.data b.data

/-- `ORDER BY distance, related.name`. -/
def recordLE (a b : RelatedRecord) : Prop :=
  a.distance < b.distance ∨ (a.distance = b.distance ∧ strLE a.name b.name = true)

instance : DecidableRel recordLE := fun a b =>
  inferInstanceAs
    (Decidable (a.distance < b.distance ∨
      (a.distance = b.distance ∧ strLE a.name b.name = true)))

/-- `AutomotiveGraphRepository.find_related_entities` (graph_utils.py
349-393): match every undirected relationship-distinct walk of length
1..max_depth from the named `:Entity` node to an `:Entity` node, return
the DISTINCT rows, ordered by distance then name, LIMIT 100; on any store
failure return `[]`. -/
def relatedRows (g : Graph) (entity_name : String) (max_depth : Nat)
    (relationship_types : Option (List String)) : List RelatedRecord :=
  (if g.nodes.any (fun n => n.label == "Entity" && n.name == entity_name)
   then walksFrom g (normTypes relationship_types) max_depth entity_name []
   else []).flatMap (fun w =>
    (g.nodes.filter (fun n => n.label == "Entity" && n.name == w.1)).map
      (fun n => RelatedRecord.mk n.name n.ntype n.value w.2.1 w.2.2))

def find_related_entities (h : Except String Graph) (entity_name : String)
    (max_depth : Nat) (relationship_types : Option (List String)) :
    List RelatedRecord :=
  match h with
  | Except.error _ => []
  | Except.ok g =>
    (List.insertionSort recordLE
      ((relatedRows g entity_name max_depth relationship_types).dedup)).take
      100

/-- The four-list shape of `find_component_dependencies`. -/
structure ComponentDependencies where
  dependencies : List String
  required_by : List String
  systems : List String
  suppliers : List String
deriving DecidableEq, Repr

def emptyDependencies : ComponentDependencies := ⟨[], [], [], []⟩

def nodeHas (g : Graph) (label name : String) : Bool :=
  g.nodes.any (fun n => n.label == label && n.name == name)

/-- `AutomotiveGraphRepository.find_component_dependencies` (graph_utils.py
395-437): outgoing DEPENDS_ON targets, incoming DEPENDS_ON sources,
outgoing PART_OF systems, outgoing SUPPLIED_BY suppliers, each a DISTINCT
name list; the four lists are empty when the component does not match, and
on any store failure. -/
def find_component_dependencies (h : Except String Graph)
    (component_name : String) : ComponentDependencies :=
  match h with
  | Except.error _ => emptyDependencies
  | Except.ok g =>
    if nodeHas g "Component" component_name then
      { dependencies :=
          ((g.edges.filter (fun e =>
              e.rtype == "DEPENDS_ON" && e.src == component_name &&
                nodeHas g "Component" e.dst)).map (fun e => e.dst)).dedup
        required_by :=
          ((g.edges.filter (fun e =>
              e.rtype == "DEPENDS_ON" && e.dst == component_name &&
                nodeHas g "Component" e.src)).map (fun e => e.src)).dedup
        systems :=
          ((g.edges.filter (fun e =>
              e.rtype == "PART_OF" && e.src == component_name &&
                nodeHas g "System" e.dst)).map (fun e => e.dst)).dedup
        suppliers :=
          ((g.edges.filter (fun e =>
              e.rtype == "SUPPLIED_BY" && e.src == component_name &&
                nodeHas g "Supplier" e.dst)).map (fun e => e.dst)).dedup }
    else emptyDependencies

/-- One row of `find_system_components`. -/
structure SystemComponent where
  name : String
  value : Option String
  suppliers : List String
deriving DecidableEq, Repr

def sysCompLE (a b : SystemComponent) : Prop := strLE a.name b.name = true

instance : DecidableRel sysCompLE := fun a b =>
  inferInstanceAs (Decidable (strLE a.name b.name = true))

/-- `AutomotiveGraphRepository.find_system_components` (graph_utils.py
439-468): components with a PART_OF edge into the named system, with their
supplier lists, ordered by component name; `[]` on store failure. -/
def find_system_components (h : Except String Graph) (system_name : String) :
    List SystemComponent :=
  match h with
  | Except.error _ => []
  | Except.ok g =>
    if nodeHas g "System" system_name then
      (((g.edges.filter (fun e =>
            e.rtype == "PART_OF" && e.dst == system_name)).flatMap (fun e =>
          (g.nodes.filter (fun n =>
              n.label == "Component" && n.name == e.src)).map (fun n =>
            SystemComponent.mk n.name n.value
              (((g.edges.filter (fun s =>
                  s.rtype == "SUPPLIED_BY" && s.src == n.name &&
                    nodeHas g "Supplier" s.dst)).map
                (fun s => s.dst)).dedup)))).dedup).insertionSort sysCompLE
    else []

/-- One row of `search_by_pattern`. -/
structure PatternRecord where
  name : String
  ntype : Option String
  value : Option String
  confidence_score : Option ℚ
deriving DecidableEq, Repr

/-- `ORDER BY e.confidence_score DESC, e.name` (Cypher sorts `null` above
every value, so a missing confidence comes first in descending order). -/
def patternLE (a b : PatternRecord) : Bool :=
  match a.confidence_score, b.confidence_score with
  | none, none => strLE a.name b.name
  | none, some _ => true
  | some _, none => false
  | some x, some y =>
    decide (y < x) || (decide (x = y) && strLE a.name b.name)

def PatternLE (a b : PatternRecord) : Prop := patternLE a b = true

instance : DecidableRel PatternLE := fun a b =>
  inferInstanceAs (Decidable (patternLE a b = true))

/-- `(?i).*pattern.*`: case-insensitive substring match on the entity name. -/
def nameMatches (pat name : String) : Bool :=
  decide ((lowerString pat).data <:+: (lowerString name).data)

/-- `AutomotiveGraphRepository.search_by_pattern` (graph_utils.py 470-508):
`:Entity` nodes whose name contains the pattern case-insensitively,
optionally restricted to the given `e.type` values, ordered by confidence
descending then name, LIMIT 50; `[]` on store failure. -/
def search_by_pattern (h : Except String Graph) (pat : String)
    (entity_types : Option (List String)) : List PatternRecord :=
  match h with
  | Except.error _ => []
  | Except.ok g =>
    (((g.nodes.filter (fun n =>
        n.label == "Entity" && nameMatches pat n.name &&
          (match normTypes entity_types with
           | none => true
           | some ts =>
             match n.ntype with
             | none => false
             | some t => ts.contains t))).map
      (fun n => PatternRecord.mk n.name n.ntype n.value
        n.confidence_score)).insertionSort PatternLE).take 50

/-! ### General facts about the lexical path -/

/-- Every row delivered by the lexical store fetch comes from the
chunk-document join and satisfies the built WHERE clause. -/
theorem mem_of_runLexicalQuery {st : Store} {q : HybridSearchQuery}
    {rows : List JoinedRow} (h : runLexicalQuery st q = Except.ok rows)
    {r : JoinedRow} (hr : r ∈ rows) :
    r ∈ joinRows st ∧ wherePred q r = true := by
  unfold runLexicalQuery at h
  split at h
  · exact Except.noConfusion h
  · cases h
    have h1 : r ∈ List.insertionSort RowLE
        ((joinRows st).filter (wherePred q)) := List.mem_of_mem_take hr
    have h2 := (List.mem_insertionSort RowLE).mp h1
    exact ⟨(List.mem_filter.mp h2).1, (List.mem_filter.mp h2).2⟩

/-- The delivered rows are sorted by the three-key ORDER BY relation. -/
theorem sorted_of_runLexicalQuery {st : Store} {q : HybridSearchQuery}
    {rows : List JoinedRow} (h : runLexicalQuery st q = Except.ok rows) :
    rows.Pairwise RowLE := by
  unfold runLexicalQuery at h
  split at h
  · exact Except.noConfusion h
  · cases h
    exact List.Pairwise.sublist (List.take_sublist _ _)
      (List.sorted_insertionSort RowLE _)

/-- The delivered row count never exceeds the LIMIT argument. -/
theorem length_of_runLexicalQuery {st : Store} {q : HybridSearchQuery}
    {rows : List JoinedRow} (h : runLexicalQuery st q = Except.ok rows) :
    rows.length ≤ q.max_results.toNat := by
  unfold runLexicalQuery at h
  split at h
  · exact Except.noConfusion h
  · cases h
    rw [List.length_take]
    exact Nat.min_le_left _ _

/-- With a nonnegative LIMIT the lexical fetch cannot fail. -/
theorem runLexicalQuery_ok {st : Store} {q : HybridSearchQuery}
    (h : 0 ≤ q.max_results) :
    runLexicalQuery st q =
      Except.ok ((List.insertionSort RowLE
        ((joinRows st).filter (wherePred q))).take q.max_results.toNat) := by
  unfold runLexicalQuery
  split
  · omega
  · rfl

/-- Every `SearchResult` of a hybrid-search response is the formatting of a
row delivered by the lexical fetch. -/
theorem mem_results_hybrid {st : Store} {q : HybridSearchQuery}
    {r : SearchResult} (hr : r ∈ (hybrid_search st q).1.results) :
    ∃ rows jr, runLexicalQuery st q = Except.ok rows ∧ jr ∈ rows ∧
      r = formatRow jr := by
  unfold hybrid_search at hr
  cases hrun : runLexicalQuery st q with
  | error e => rw [hrun] at hr; simp at hr
  | ok rows =>
    rw [hrun] at hr
    simp only [List.mem_map] at hr
    obtain ⟨jr, hjr, hfmt⟩ := hr
    exact ⟨rows, jr, rfl, hjr, hfmt.symm⟩

/-! ### Concrete fixtures used by the counterexamples and witnesses -/

def fixDoc1 : DocRow :=
  ⟨1, some "Basic Notes", "notes.md", "repair_note", none, none, none, none, 5⟩

def fixChunk1 : ChunkRow := ⟨1, 1, "calibration steps", 0, none⟩

def fixStore1 : Store := ⟨[fixDoc1], [fixChunk1]⟩

def fixRow1 : JoinedRow := ⟨fixChunk1, fixDoc1⟩

def fixQuery1 : HybridSearchQuery :=
  ⟨"camera calibration", "hybrid", 10, none, none, 7/10⟩

set_option maxRecDepth 8000

theorem contentCond_of_ne_nil {terms : List String} (h : terms ≠ [])
    (r : JoinedRow) :
    contentCond terms r = terms.any (fun t => termCond t r) := by
  cases terms with
  | nil => exact absurd rfl h
  | cons a l => rfl

/-- C1: the claim states the per-term (content OR title) clauses are
combined with AND across terms, so every returned row would have to match
*every* surviving term.  False: tools.py 369 joins the per-term clauses
with `' OR '`, so a row matching only one of the two surviving terms of
the query "camera calibration" is returned. -/
theorem C1_counterexample :
    ¬ (∀ rows, runLexicalQuery fixStore1 fixQuery1 = Except.ok rows →
        ∀ r ∈ rows, ∀ t ∈ filterSearchTerms fixQuery1.query,
          termCond t r = true) := by
  intro h
  have h1 := h [fixRow1] rfl fixRow1 (by decide) "camera" (by decide)
  exact absurd h1 (by decide)

/-- C1 (amended): when at least one token survives stop-word filtering,
every row returned by the lexical search matches *at least one* surviving
term in its chunk content or document title, case-insensitively — the
per-term (content OR title) clauses are combined with OR across terms,
not AND. -/
theorem C1_theorem (st : Store) (q : HybridSearchQuery)
    (rows : List JoinedRow) (hterms : filterSearchTerms q.query ≠ [])
    (hrun : runLexicalQuery st q = Except.ok rows) :
    ∀ r ∈ rows, ∃ t ∈ filterSearchTerms q.query, termCond t r = true := by
  intro r hr
  have hw := (mem_of_runLexicalQuery hrun hr).2
  simp only [wherePred, Bool.and_eq_true] at hw
  have hc := hw.1.1
  rw [contentCond_of_ne_nil hterms] at hc
  simpa using List.any_eq_true.mp hc

/-- Witness for C1: the amended theorem applied to the concrete store and
query of the counterexample. -/
theorem C1_witness :
    ∃ t ∈ filterSearchTerms fixQuery1.query, termCond t fixRow1 = true :=
  C1_theorem fixStore1 fixQuery1 [fixRow1] (by decide) rfl fixRow1 (by decide)

/-- C10: every `SearchResult` of the hybrid search has score exactly 1 —
the SELECT list of the lexical query fixes `relevance_score` to the
literal `1.0` (tools.py 404) and the formatter merely coerces it. -/
theorem C10_theorem (st : Store) (q : HybridSearchQuery) :
    ∀ r ∈ (hybrid_search st q).1.results, r.score = 1 := by
  intro r hr
  obtain ⟨rows, jr, _, _, hfmt⟩ := mem_results_hybrid hr
  rw [hfmt]
  rfl

/-- Witness for C10 at a concrete store and query with one result. -/
theorem C10_witness : (formatRow fixRow1).score = 1 :=
  C10_theorem fixStore1 fixQuery1 (formatRow fixRow1) (by decide)

theorem length_truncate500 (s : String) : (truncate500 s).length ≤ 503 := by
  unfold truncate500
  split
  · rw [String.length_append]
    have h1 : (String.mk (s.data.take 500)).length ≤ 500 := by
      show (s.data.take 500).length ≤ 500
      rw [List.length_take]
      exact Nat.min_le_left _ _
    have h2 : ("..." : String).length = 3 := rfl
    omega
  · omega

/-- Every candidate delivered by the vector fetch is one of the filtered
embedding-bearing rows. -/
theorem mem_vector_search {st : Store} {dist : List ℚ → List ℚ → ℚ}
    {qe : List ℚ} {limit : Int} {ct vs : Option String}
    {res : List VectorSearchResult}
    (h : vector_search st dist qe limit ct vs = Except.ok res)
    {r : VectorSearchResult} (hr : r ∈ res) :
    ∃ p ∈ vsCandidates st ct vs, r = mkVectorResult dist qe p := by
  unfold vector_search at h
  split at h
  · exact Except.noConfusion h
  · split at h
    · exact Except.noConfusion h
    · cases h
      simp only [List.mem_map] at hr
      obtain ⟨p, hp, hmk⟩ := hr
      exact ⟨p, (List.mem_insertionSort _).mp (List.mem_of_mem_take hp),
        hmk.symm⟩

/-- A vector-search candidate is a joined row whose chunk embedding is
non-null. -/
theorem mem_vsCandidates {st : Store} {ct vs : Option String}
    {p : JoinedRow × List ℚ} (hp : p ∈ vsCandidates st ct vs) :
    p.1 ∈ joinRows st ∧ p.1.chunk.embedding = some p.2 := by
  unfold vsCandidates at hp
  simp only [List.mem_filterMap] at hp
  obtain ⟨jr, hjr, hf⟩ := hp
  cases hemb : jr.chunk.embedding with
  | none => rw [hemb] at hf; exact Option.noConfusion hf
  | some e =>
    rw [hemb] at hf
    have hf' :
        (if (eqCond ct jr.doc.content_type &&
              optEqCond vs jr.doc.vehicle_system) = true
         then some (jr, e) else none) = some p := hf
    by_cases hcnd :
        (eqCond ct jr.doc.content_type &&
          optEqCond vs jr.doc.vehicle_system) = true
    · rw [if_pos hcnd] at hf'
      cases hf'
      exact ⟨hjr, hemb⟩
    · rw [if_neg hcnd] at hf'
      exact Option.noConfusion hf'

theorem chunk_mem_of_mem_joinRows {st : Store} {r : JoinedRow}
    (h : r ∈ joinRows st) : r.chunk ∈ st.chunks := by
  unfold joinRows at h
  simp only [List.mem_flatMap, List.mem_map] at h
  obtain ⟨c, hc, d, _, heq⟩ := h
  rw [← heq]
  exact hc

def fixLongChunk : ChunkRow :=
  ⟨7, 1, String.mk (List.replicate 504 'a'), 0, some [1]⟩

def fixStore3 : Store := ⟨[fixDoc1], [fixLongChunk]⟩

def C3_vr : VectorSearchResult :=
  mkVectorResult (fun _ _ => 0) [1] (⟨fixLongChunk, fixDoc1⟩, [1])

/-- C3: the claim states every `SearchResult` of *any* search path carries
content of at most 500 characters plus the ellipsis marker.  False: the
vector path (db_utils.py 344) copies the chunk content into the result
unmodified, so a 504-character chunk yields a 504-character result. -/
theorem C3_counterexample :
    ∃ res, vector_search fixStore3 (fun _ _ => 0) [1] 10 none none =
        Except.ok res ∧ ∃ r ∈ res, 503 < r.content.length :=
  ⟨_, rfl, by decide⟩

/-- C3 (amended): the lexical/hybrid path truncates — its results' content
never exceeds 500 characters plus the 3-character ellipsis, and content of
at most 500 characters passes through unchanged; the vector path instead
returns the chunk content unmodified (still only from chunks with a
non-null embedding). -/
theorem C3_theorem :
    (∀ (st : Store) (q : HybridSearchQuery),
      ∀ r ∈ (hybrid_search st q).1.results, r.content.length ≤ 503) ∧
    (∀ jr : JoinedRow, jr.chunk.content.length ≤ 500 →
      (formatRow jr).content = jr.chunk.content) ∧
    (∀ (st : Store) (dist : List ℚ → List ℚ → ℚ) (qe : List ℚ)
      (limit : Int) (ct vs : Option String) (res : List VectorSearchResult),
      vector_search st dist qe limit ct vs = Except.ok res →
      ∀ r ∈ res, ∃ c ∈ st.chunks, c.embedding ≠ none ∧
        r.content = c.content) := by
  refine ⟨?_, ?_, ?_⟩
  · intro st q r hr
    obtain ⟨rows, jr, _, _, hfmt⟩ := mem_results_hybrid hr
    rw [hfmt]
    exact length_truncate500 _
  · intro jr hlen
    show truncate500 jr.chunk.content = jr.chunk.content
    unfold truncate500
    split
    · omega
    · rfl
  · intro st dist qe limit ct vs res h r hr
    obtain ⟨p, hp, hmk⟩ := mem_vector_search h hr
    obtain ⟨hjoin, hemb⟩ := mem_vsCandidates hp
    refine ⟨p.1.chunk, chunk_mem_of_mem_joinRows hjoin, ?_, ?_⟩
    · rw [hemb]; exact Option.noConfusion
    · rw [hmk]; rfl

/-- Witness for C3: the amended theorem applied at concrete rows of both
paths. -/
theorem C3_witness :
    (formatRow fixRow1).content.length ≤ 503 ∧
    (formatRow fixRow1).content = fixRow1.chunk.content ∧
    ∃ c ∈ fixStore3.chunks, c.embedding ≠ none ∧ C3_vr.content = c.content :=
  ⟨C3_theorem.1 fixStore1 fixQuery1 (formatRow fixRow1) (by decide),
   C3_theorem.2.1 fixRow1 (by decide),
   C3_theorem.2.2 fixStore3 (fun _ _ => 0) [1] 10 none none [C3_vr] rfl C3_vr
     (List.mem_singleton.mpr rfl)⟩

def C6_chunkA : ChunkRow := ⟨11, 1, "alpha", 0, some [2]⟩

def C6_chunkB : ChunkRow := ⟨12, 1, "beta", 1, some [1]⟩

def C6_store : Store := ⟨[fixDoc1], [C6_chunkA, C6_chunkB]⟩

def C6_dist : List ℚ → List ℚ → ℚ := fun a _ => a.headD 0

def C6_res : List VectorSearchResult :=
  match vector_search C6_store C6_dist [0] 10 none none with
  | Except.ok l => l
  | Except.error _ => []

/-- C6: when `vector_search` returns, every result comes from a chunk
with a non-null embedding, its score is 1 minus the distance computed by
the store's vector operator on that embedding, the scores are
monotonically non-increasing by position, and the list length is bounded
by the limit.  `dist` abstracts the pgvector `<=>` operator; the SELECT
computes `1 - (c.embedding <=> $1::vector)` and the ORDER BY sorts by the
same distance, ascending (db_utils.py 318-335). -/
theorem C6_theorem (st : Store) (dist : List ℚ → List ℚ → ℚ) (qe : List ℚ)
    (limit : Int) (ct vs : Option String) (res : List VectorSearchResult)
    (h : vector_search st dist qe limit ct vs = Except.ok res) :
    List.Pairwise
      (fun a b : VectorSearchResult =>
        b.similarity_score ≤ a.similarity_score) res ∧
    res.length ≤ limit.toNat ∧
    ∀ r ∈ res, ∃ c ∈ st.chunks, ∃ e : List ℚ, c.embedding = some e ∧
      r.chunk_id = c.cid ∧ r.similarity_score = 1 - dist e qe ∧
      r.score = 1 - dist e qe := by
  refine ⟨?_, ?_, ?_⟩
  · unfold vector_search at h
    split at h
    · exact Except.noConfusion h
    · split at h
      · exact Except.noConfusion h
      · cases h
        have hs := List.sorted_insertionSort (distLE dist qe)
          (vsCandidates st ct vs)
        have ht : List.Pairwise (distLE dist qe)
            ((List.insertionSort (distLE dist qe)
              (vsCandidates st ct vs)).take limit.toNat) :=
          List.Pairwise.sublist (List.take_sublist _ _) hs
        rw [List.pairwise_map]
        refine ht.imp ?_
        intro a b hab
        show 1 - dist b.2 qe ≤ 1 - dist a.2 qe
        exact sub_le_sub_left hab 1
  · unfold vector_search at h
    split at h
    · exact Except.noConfusion h
    · split at h
      · exact Except.noConfusion h
      · cases h
        rw [List.length_map, List.length_take]
        exact Nat.min_le_left _ _
  · intro r hr
    obtain ⟨p, hp, hmk⟩ := mem_vector_search h hr
    obtain ⟨hjoin, hemb⟩ := mem_vsCandidates hp
    exact ⟨p.1.chunk, chunk_mem_of_mem_joinRows hjoin, p.2, hemb,
      by rw [hmk]; rfl, by rw [hmk]; rfl, by rw [hmk]; rfl⟩

/-- Witness for C6 at a concrete two-chunk store and a concrete distance
function under which the two candidates sort in reverse insertion order. -/
theorem C6_witness :
    List.Pairwise
      (fun a b : VectorSearchResult =>
        b.similarity_score ≤ a.similarity_score) C6_res ∧
    C6_res.length ≤ (10 : Int).toNat :=
  ⟨(C6_theorem C6_store C6_dist [0] 10 none none C6_res rfl).1,
   (C6_theorem C6_store C6_dist [0] 10 none none C6_res rfl).2.1⟩

def C4_query : HybridSearchQuery :=
  ⟨"brake pads", "hybrid", 0, some ["bogus_type"], none, 7/10⟩

def C4_queryNeg : HybridSearchQuery :=
  ⟨"brake pads", "hybrid", -1, none, none, 7/10⟩

/-- C4: the claim states malformed filter values (an unknown content-type
tag, a non-positive max_results) are rejected with a ValidationError
before any store query is issued.  False: `HybridSearchQuery` declares no
constraint (tools.py 44-51) and `hybrid_search` validates nothing — for a
query carrying both an unknown content-type tag and max_results = 0, the
single store round-trip is still issued (fetch count 1) and the response
carries no error at all. -/
theorem C4_counterexample :
    (hybrid_search fixStore1 C4_query).2 = 1 ∧
    (hybrid_search fixStore1 C4_query).1.error = none := by decide

/-- C4 (amended): no filter validation is performed — the store query is
always issued exactly once with the filter values as given; with a
nonnegative max_results the response never carries an error (an unknown
content-type tag merely matches no rows), and a negative max_results
produces a store-side LIMIT failure that is caught and surfaced in the
response's error field rather than as a pre-query ValidationError. -/
theorem C4_theorem (st : Store) (q : HybridSearchQuery) :
    (hybrid_search st q).2 = 1 ∧
    (0 ≤ q.max_results → (hybrid_search st q).1.error = none) ∧
    (q.max_results < 0 →
      (hybrid_search st q).1.error =
        some "Hybrid search failed: LIMIT must not be negative") := by
  by_cases h : q.max_results < 0
  · have hrun : runLexicalQuery st q =
        Except.error "LIMIT must not be negative" := by
      unfold runLexicalQuery
      rw [if_pos h]
    refine ⟨?_, ?_, ?_⟩
    · simp [hybrid_search, hrun]
    · intro h'; omega
    · intro _; simp [hybrid_search, hrun]
  · have hrun := @runLexicalQuery_ok st q (by omega)
    refine ⟨?_, ?_, ?_⟩
    · simp [hybrid_search, hrun]
    · intro _; simp [hybrid_search, hrun]
    · intro h'; omega

/-- Witness for C4: the amended theorem applied at a negative and at a
nonnegative max_results. -/
theorem C4_witness :
    (hybrid_search fixStore1 C4_queryNeg).1.error =
      some "Hybrid search failed: LIMIT must not be negative" ∧
    (hybrid_search fixStore1 C4_query).1.error = none :=
  ⟨(C4_theorem fixStore1 C4_queryNeg).2.2 (by decide),
   (C4_theorem fixStore1 C4_query).2.1 (by decide)⟩

theorem wherePred_no_terms {q : HybridSearchQuery}
    (h : filterSearchTerms q.query = []) (r : JoinedRow) :
    wherePred q r =
      (ctCond q.content_types r.doc.content_type &&
        vsCond q.vehicle_systems r.doc.vehicle_system) := by
  unfold wherePred
  rw [h]
  rfl

def C5_query : HybridSearchQuery := ⟨"is a the", "hybrid", 10, none, none, 7/10⟩

def C5_query2 : HybridSearchQuery := ⟨"of to", "vector", 10, none, none, 1/2⟩

/-- C5: when zero tokens survive stop-word filtering the lexical search
does not fail: the WHERE clause degenerates to the literal `TRUE`
(tools.py 370-372), the response carries no error, at most max_results
rows are returned, each row is constrained only by the content-type and
vehicle-system filters, and the result list is independent of the query
text (any other zero-term query with the same filters returns the same
list). -/
theorem C5_theorem (st : Store) (q q' : HybridSearchQuery)
    (hterms : filterSearchTerms q.query = []) (hmax : 0 ≤ q.max_results) :
    (hybrid_search st q).1.error = none ∧
    (hybrid_search st q).1.results.length ≤ q.max_results.toNat ∧
    (∀ rows, runLexicalQuery st q = Except.ok rows →
      ∀ r ∈ rows, r ∈ joinRows st ∧
        ctCond q.content_types r.doc.content_type = true ∧
        vsCond q.vehicle_systems r.doc.vehicle_system = true) ∧
    (filterSearchTerms q'.query = [] → q'.max_results = q.max_results →
      q'.content_types = q.content_types →
      q'.vehicle_systems = q.vehicle_systems →
      (hybrid_search st q').1.results = (hybrid_search st q).1.results) := by
  have hrun := @runLexicalQuery_ok st q hmax
  refine ⟨?_, ?_, ?_, ?_⟩
  · simp [hybrid_search, hrun]
  · have hres : (hybrid_search st q).1.results =
        List.map formatRow ((List.insertionSort RowLE
          ((joinRows st).filter (wherePred q))).take q.max_results.toNat) := by
      simp [hybrid_search, hrun]
    rw [hres, List.length_map, List.length_take]
    exact Nat.min_le_left _ _
  · intro rows hrows r hr
    obtain ⟨hj, hw⟩ := mem_of_runLexicalQuery hrows hr
    rw [wherePred_no_terms hterms] at hw
    exact ⟨hj, (Bool.and_eq_true _ _).mp hw⟩
  · intro h1 h2 h3 h4
    have hwp : wherePred q' = wherePred q := by
      funext r
      rw [wherePred_no_terms hterms, wherePred_no_terms h1, h3, h4]
    have hrq : runLexicalQuery st q' = runLexicalQuery st q := by
      unfold runLexicalQuery
      rw [h2, hwp]
    simp [hybrid_search, hrq.trans hrun, hrun, h2]

/-- Witness for C5: two concrete stop-word-only queries over the fixture
store. -/
theorem C5_witness :
    (hybrid_search fixStore1 C5_query).1.error = none ∧
    (hybrid_search fixStore1 C5_query2).1.results =
      (hybrid_search fixStore1 C5_query).1.results :=
  ⟨(C5_theorem fixStore1 C5_query C5_query2 (by decide) (by decide)).1,
   (C5_theorem fixStore1 C5_query C5_query2 (by decide)
       (by decide)).2.2.2 (by decide) rfl rfl rfl⟩

def C7_docOld : DocRow :=
  ⟨1, some "Service Bulletin 17", "f1.md", "repair_note", none, none, none,
   none, 300⟩

def C7_docCam : DocRow :=
  ⟨2, some "Front Camera Module", "f2.md", "hardware_spec", some "ADAS",
   none, none, none, 200⟩

def C7_docAdas : DocRow :=
  ⟨3, some "ADAS System Overview", "f3.md", "system_architecture",
   some "ADAS", none, none, none, 100⟩

def C7_store : Store :=
  ⟨[C7_docOld, C7_docCam, C7_docAdas],
   [⟨1, 1, "general calibration procedure", 0, none⟩,
    ⟨2, 2, "mounting bracket torque", 0, none⟩,
    ⟨3, 3, "sensor fusion basics", 0, none⟩]⟩

def C7_query : HybridSearchQuery :=
  ⟨"ADAS camera calibration", "hybrid", 10, none, none, 7/10⟩

def C7_query2 : HybridSearchQuery :=
  ⟨"ADAS camera calibration", "hybrid", 2, none, none, 7/10⟩

def C7_rows : List JoinedRow :=
  match runLexicalQuery C7_store C7_query with
  | Except.ok rows => rows
  | Except.error _ => []

/-- C7: the candidate rows of the lexical search are ordered by the fixed
multi-key sort — camera-title key, then adas-title key, then document
recency descending — and the ordering is applied before the LIMIT
truncation.  Concretely, for the query "ADAS camera calibration" over a
store where the *newest* document has an unrelated title matching only
"calibration", the camera-titled chunk (id 2) and the adas-titled chunk
(id 3) both sort ahead of it, and with max_results = 2 truncation keeps
exactly those two highest-priority chunks rather than the newest rows. -/
theorem C7_theorem :
    (∀ (st : Store) (q : HybridSearchQuery) (rows : List JoinedRow),
      runLexicalQuery st q = Except.ok rows → rows.Pairwise RowLE) ∧
    (hybrid_search C7_store C7_query).1.results.map
      (fun r => r.chunk_id) = [2, 3, 1] ∧
    (hybrid_search C7_store C7_query2).1.results.map
      (fun r => r.chunk_id) = [2, 3] := by
  refine ⟨?_, by decide, by decide⟩
  intro st q rows h
  exact sorted_of_runLexicalQuery h

/-- Witness for C7: the sortedness component applied to the concrete
scenario rows. -/
theorem C7_witness : C7_rows.Pairwise RowLE :=
  C7_theorem.1 C7_store C7_query C7_rows rfl

def C9_qa : HybridSearchQuery := ⟨"brake", "hybrid", 5, none, none, 7/10⟩

def C9_qb : HybridSearchQuery := ⟨"brake", "vector", 5, none, none, 7/10⟩

/-- C9: the claim states that two hybrid-search queries differing only in
search_type and/or similarity_threshold produce *identical* response
objects.  False: the success response echoes `query.model_dump()` under
`query_parameters` (tools.py 462), which contains both fields, so the two
responses differ even though all search-relevant inputs agree. -/
theorem C9_counterexample :
    C9_qa.query = C9_qb.query ∧ C9_qa.max_results = C9_qb.max_results ∧
    C9_qa.content_types = C9_qb.content_types ∧
    C9_qa.vehicle_systems = C9_qb.vehicle_systems ∧
    (hybrid_search fixStore1 C9_qa).1 ≠ (hybrid_search fixStore1 C9_qb).1 := by
  decide

/-- C9 (amended): for two queries that agree on query text, max_results,
content_types and vehicle_systems, the hybrid search reads neither
search_type nor similarity_threshold — the results, the summary, the
error field and the store-fetch count all coincide; only the echoed
`query_parameters` field can differ. -/
theorem C9_theorem (st : Store) (q1 q2 : HybridSearchQuery)
    (h1 : q1.query = q2.query) (h2 : q1.max_results = q2.max_results)
    (h3 : q1.content_types = q2.content_types)
    (h4 : q1.vehicle_systems = q2.vehicle_systems) :
    (hybrid_search st q1).1.results = (hybrid_search st q2).1.results ∧
    (hybrid_search st q1).1.summary = (hybrid_search st q2).1.summary ∧
    (hybrid_search st q1).1.error = (hybrid_search st q2).1.error ∧
    (hybrid_search st q1).2 = (hybrid_search st q2).2 := by
  have hwp : wherePred q1 = wherePred q2 := by
    funext r
    unfold wherePred
    rw [h1, h3, h4]
  have hrun : runLexicalQuery st q1 = runLexicalQuery st q2 := by
    unfold runLexicalQuery
    rw [h2, hwp]
  unfold hybrid_search
  rw [hrun, h1, h3, h4]
  cases hc : runLexicalQuery st q2 with
  | error e => exact ⟨rfl, rfl, rfl, rfl⟩
  | ok rows => exact ⟨rfl, rfl, rfl, rfl⟩

/-- Witness for C9: the amended theorem at the two concrete queries of the
counterexample. -/
theorem C9_witness :
    (hybrid_search fixStore1 C9_qa).1.results =
      (hybrid_search fixStore1 C9_qb).1.results ∧
    (hybrid_search fixStore1 C9_qa).1.summary =
      (hybrid_search fixStore1 C9_qb).1.summary ∧
    (hybrid_search fixStore1 C9_qa).1.error =
      (hybrid_search fixStore1 C9_qb).1.error ∧
    (hybrid_search fixStore1 C9_qa).2 = (hybrid_search fixStore1 C9_qb).2 :=
  C9_theorem fixStore1 C9_qa C9_qb rfl rfl rfl rfl

/-! ### Walk semantics for the graph traversal -/

/-- Some stored relationship connects `x` and `y`, in either direction. -/
def edgeBetween (g : Graph) (x y : String) : Prop :=
  ∃ e ∈ g.edges, (e.src = x ∧ e.dst = y) ∨ (e.src = y ∧ e.dst = x)

/-- An undirected walk of the given length through the stored
relationships. -/
inductive GWalk (g : Graph) : String → String → Nat → Prop
  | nil (x : String) : GWalk g x x 0
  | step {x y z : String} {n : Nat} :
      edgeBetween g x y → GWalk g y z n → GWalk g x z (n + 1)

theorem stepsFrom_sound {g : Graph} {allowed : Option (List String)}
    {cur : String} {used : List Nat} {p : GraphEdge × String}
    (hp : p ∈ stepsFrom g allowed cur used) : edgeBetween g cur p.2 := by
  unfold stepsFrom at hp
  simp only [List.mem_filterMap] at hp
  obtain ⟨e, he, hf⟩ := hp
  by_cases h1 : (!(used.contains e.eid) && typeAllowed allowed e.rtype) = true
  · rw [if_pos h1] at hf
    by_cases h2 : (e.src == cur) = true
    · rw [if_pos h2] at hf
      cases hf
      exact ⟨e, he, Or.inl ⟨eq_of_beq h2, rfl⟩⟩
    · rw [if_neg h2] at hf
      by_cases h3 : (e.dst == cur) = true
      · rw [if_pos h3] at hf
        cases hf
        exact ⟨e, he, Or.inr ⟨rfl, eq_of_beq h3⟩⟩
      · rw [if_neg h3] at hf
        exact Option.noConfusion hf
  · rw [if_neg h1] at hf
    exact Option.noConfusion hf

theorem walksFrom_sound {g : Graph} {allowed : Option (List String)} :
    ∀ (fuel : Nat) (cur : String) (used : List Nat)
      {w : String × Nat × List String},
      w ∈ walksFrom g allowed fuel cur used →
      GWalk g cur w.1 w.2.1 ∧ 1 ≤ w.2.1 ∧ w.2.1 ≤ fuel := by
  intro fuel
  induction fuel with
  | zero =>
    intro cur used w hw
    exact absurd hw (by simp [walksFrom])
  | succ n ih =>
    intro cur used w hw
    unfold walksFrom at hw
    simp only [List.mem_flatMap] at hw
    obtain ⟨p, hp, hw⟩ := hw
    have hedge := stepsFrom_sound hp
    rcases List.mem_cons.mp hw with heq | hmem
    · subst heq
      exact ⟨GWalk.step hedge (GWalk.nil p.2), le_refl 1,
        Nat.succ_le_succ (Nat.zero_le n)⟩
    · simp only [List.mem_map] at hmem
      obtain ⟨w', hw', heq⟩ := hmem
      obtain ⟨hwalk, hlow, hhigh⟩ := ih p.2 (p.1.eid :: used) hw'
      subst heq
      exact ⟨GWalk.step hedge hwalk, Nat.succ_le_succ (Nat.zero_le _),
        Nat.succ_le_succ hhigh⟩

/-- Every record row built by the traversal corresponds to an enumerated
walk ending at a node with the record's name and length equal to the
record's distance. -/
theorem mem_relatedRows {g : Graph} {nm : String} {d : Nat}
    {rts : Option (List String)} {r : RelatedRecord}
    (hr : r ∈ relatedRows g nm d rts) :
    ∃ w ∈ walksFrom g (normTypes rts) d nm [],
      r.name = w.1 ∧ r.distance = w.2.1 := by
  unfold relatedRows at hr
  simp only [List.mem_flatMap, List.mem_map] at hr
  obtain ⟨w, hw, n, hn, heq⟩ := hr
  by_cases hc : (g.nodes.any
      (fun n => n.label == "Entity" && n.name == nm)) = true
  · rw [if_pos hc] at hw
    have hcond := (List.mem_filter.mp hn).2
    have hname : n.name = w.1 :=
      eq_of_beq ((Bool.and_eq_true _ _).mp hcond).2
    refine ⟨w, hw, ?_, ?_⟩
    · rw [← heq]
      exact hname
    · rw [← heq]
  · rw [if_neg hc] at hw
    exact absurd hw (List.not_mem_nil _)

def C2_graph : Graph :=
  ⟨[⟨"X", "Entity", some "component", none, none⟩,
    ⟨"A", "Entity", some "component", none, none⟩],
   [⟨1, "X", "A", "DEPENDS_ON"⟩, ⟨2, "X", "A", "PART_OF"⟩]⟩

def C2_recA : RelatedRecord := ⟨"A", some "component", none, 1, ["DEPENDS_ON"]⟩

/-- C2: the claim states `graph_related(X, d)` never returns X itself and
that each record's distance is the minimum hop count.  False: the Cypher
variable-length pattern `-[r*1..d]-` (graph_utils.py 364) enumerates all
relationship-distinct walks, so over two parallel relationships X—A the
walk X→A→X of length 2 returns X itself, with distance 2 although X's
true distance to itself is 0. -/
theorem C2_counterexample :
    ∃ r ∈ find_related_entities (Except.ok C2_graph) "X" 2 none,
      r.name = "X" ∧ r.distance = 2 := by decide

/-- C2 (amended): every record returned by `graph_related(X, d)` is an
entity reached from X by some undirected walk through the stored
relationships whose length equals the record's distance, with
1 ≤ distance ≤ d — so no returned entity has a true shortest path to X
exceeding d hops; but the distance is the length of one enumerated walk,
not necessarily the minimum, and X itself can be returned via a cycle of
distinct relationships. -/
theorem C2_theorem (g : Graph) (entity_name : String) (max_depth : Nat)
    (rts : Option (List String)) :
    ∀ r ∈ find_related_entities (Except.ok g) entity_name max_depth rts,
      1 ≤ r.distance ∧ r.distance ≤ max_depth ∧
      GWalk g entity_name r.name r.distance := by
  intro r hr
  unfold find_related_entities at hr
  have hr1 := (List.mem_insertionSort _).mp (List.mem_of_mem_take hr)
  have hr2 := List.mem_dedup.mp hr1
  obtain ⟨w, hw, hname, hdist⟩ := mem_relatedRows hr2
  obtain ⟨hwalk, hlow, hhigh⟩ := walksFrom_sound max_depth entity_name [] hw
  rw [hname, hdist]
  exact ⟨hlow, hhigh, hwalk⟩

/-- Witness for C2: the amended theorem applied to the record for A at
distance 1 in the concrete two-node graph. -/
theorem C2_witness :
    1 ≤ C2_recA.distance ∧ C2_recA.distance ≤ 2 ∧
    GWalk C2_graph "X" C2_recA.name C2_recA.distance :=
  C2_theorem C2_graph "X" 2 none C2_recA (by decide)

/-- C8: every graph operation invoked against an unavailable graph store
returns its empty-collection shape instead of propagating the failure:
the traversal and the pattern search return `[]`, the dependency lookup
returns four empty lists, and the system-membership query returns `[]` —
each repository method wraps its query in `try/except Exception`
(graph_utils.py 391-393, 430-437, 466-468, 506-508). -/
theorem C8_theorem (err : String) (entity_name component_name system_name
    pat : String) (max_depth : Nat) (rts ets : Option (List String)) :
    find_related_entities (Except.error err) entity_name max_depth rts = [] ∧
    find_component_dependencies (Except.error err) component_name =
      emptyDependencies ∧
    find_system_components (Except.error err) system_name = [] ∧
    search_by_pattern (Except.error err) pat ets = [] :=
  ⟨rfl, rfl, rfl, rfl⟩
